import Mathlib

/-!
Verification of the AutoReply conversation text extractor.

This file embeds, in Lean, the extraction pipeline of the repository:

* `src/text_extractor.py`: the macOS accessibility-tree walker
  (`_walk_tree`), the noise filter (`format_extracted_text`), the deep
  scroll-and-union scan (`scroll_and_extract`) and the orchestrator
  (`extract_conversation`);
* `src/platform_utils/base.py`: `BasePlatform.extract_conversation`;
* `src/platform_utils/macos_support.py`: `MacOSPlatform`'s walker and
  `extract_text_from_window`;
* `src/platform_utils/windows_support.py`: `WindowsPlatform._walk_tree`.

OS handles (AXUIElement / UI Automation controls) are modelled as finite
trees carrying the string attributes the code reads; OS side effects
(scroll gestures) are modelled by counting them; Python exceptions at the
OS boundary are modelled with `Except`.
-/

/-- An accessibility-tree node as seen by the macOS code: the four
attributes read by the walkers (`AXRole`, `AXValue`, `AXTitle`,
`AXDescription`; `None` models a missing or non-string attribute) and the
`AXChildren` list. -/
inductive AXNode where
  | mk (role value title desc : Option String) (children : List AXNode)

/-- One entry of the `results` list built by `_walk_tree` in
`src/text_extractor.py`: a dict with keys role, text and depth. -/
structure NodeRec where
  role : String
  text : String
  depth : Nat
deriving DecidableEq, Repr

/-- Maximum tree traversal depth (`_MAX_DEPTH` in `src/text_extractor.py`
and `src/platform_utils/macos_support.py`). -/
def MAX_DEPTH : Nat := 40

/-- Model of Python str.strip(): drop leading and trailing whitespace
characters. Defined structurally on the character list so that concrete
instances reduce in the kernel. -/
def pyStrip (s : String) : String :=
  ⟨(((s.data.dropWhile Char.isWhitespace).reverse).dropWhile Char.isWhitespace).reverse⟩

/-- Model of Python str.lower(): character-wise lowercasing (the
deny-list entries that have case at all are ASCII). -/
def pyLower (s : String) : String :=
  ⟨s.data.map Char.toLower⟩

/-- Splitting a character list at every occurrence of a separator
character; the empty list yields one empty group, like Python split. -/
def splitOnCharList (c : Char) : List Char → List (List Char)
  | [] => [[]]
  | a :: as =>
    if a = c then [] :: splitOnCharList c as
    else
      match splitOnCharList c as with
      | [] => [[a]]
      | g :: gs => (a :: g) :: gs

/-- Model of Python text.split on a newline: every occurrence of the
separator splits, empty pieces are preserved, and an empty string yields
one empty piece. -/
def pySplitNl (s : String) : List String :=
  (splitOnCharList (Char.ofNat 10) s.data).map fun cs => ⟨cs⟩

/-- The `text_parts` computation of `_walk_tree` in
`src/text_extractor.py` lines 102-108: the stripped value, then the
stripped title when the raw title differs from the raw value, then the
stripped description when the raw description differs from both. -/
def nodeTextParts (value title desc : Option String) : List String :=
  (match value with
   | some v => if pyStrip v ≠ "" then [pyStrip v] else []
   | none => []) ++
  (match title with
   | some t => if pyStrip t ≠ "" ∧ some t ≠ value then [pyStrip t] else []
   | none => []) ++
  (match desc with
   | some d => if pyStrip d ≠ "" ∧ some d ≠ value ∧ some d ≠ title then [pyStrip d] else []
   | none => [])

mutual
/-- Embedding of `_walk_tree` in `src/text_extractor.py`: returns the `results` list
collected by the recursive traversal started at the given depth. -/
def walkTree : AXNode → Nat → List NodeRec
  | AXNode.mk role value title desc children, depth =>
    if MAX_DEPTH < depth then []
    else
      let parts := nodeTextParts value title desc
      (if parts ≠ [] then
        [⟨role.getD "", String.intercalate " | " parts, depth⟩]
       else []) ++ walkTrees children (depth + 1)

/-- The `for child in children` loop of `_walk_tree` in
`src/text_extractor.py`. -/
def walkTrees : List AXNode → Nat → List NodeRec
  | [], _ => []
  | t :: ts, depth => walkTree t depth ++ walkTrees ts depth
end

/-- The `ui_noise` deny-list of `format_extracted_text` in
`src/text_extractor.py`. -/
def uiNoise : List String :=
  ["close", "minimize", "zoom", "back", "forward", "send",
   "attach", "emoji", "search", "menu", "file", "edit", "view",
   "window", "help", "new", "open", "save", "cut", "copy", "paste",
   "undo", "redo", "select all", "find", "×", "...", "⋮"]

/-- The per-line loop of `format_extracted_text` in
`src/text_extractor.py` lines 163-182, threading the `seen` set (modelled
as a list with membership): skip text shorter than 2 characters, skip
deny-listed text (lowercased exact match), skip duplicates, keep the
rest in order. -/
def formatLines : List String → List String → List String
  | [], _ => []
  | t :: ts, seen =>
    if t.length < 2 then formatLines ts seen
    else if pyLower t ∈ uiNoise then formatLines ts seen
    else if t ∈ seen then formatLines ts seen
    else t :: formatLines ts (t :: seen)

/-- Embedding of `format_extracted_text` in `src/text_extractor.py`: filter the node
texts and join them with newlines. -/
def formatExtractedText (nodes : List NodeRec) : String :=
  String.intercalate "\n" (formatLines (nodes.map (·.text)) [])

/-- Embedding of `extract_text_from_app` in `src/text_extractor.py`: `none` models the
cases where no AXUIElement could be created or no window was found (the
function returns `[]`); otherwise the window tree is walked from depth
0. -/
def extractTextFromApp (window : Option AXNode) : List NodeRec :=
  match window with
  | none => []
  | some w => walkTree w 0

/-- The `for line in text.split: if line and line not in seen_lines`
accumulation shared by `scroll_and_extract` in `src/text_extractor.py`
and the deep branch of `BasePlatform.extract_conversation`. The state is
(seen, accumulated lines in order). -/
def addLines : List String → List String × List String → List String × List String
  | [], st => st
  | l :: ls, st =>
    if l ≠ "" ∧ l ∉ st.1 then addLines ls (l :: st.1, st.2 ++ [l])
    else addLines ls st

/-- Result of a deep scan: the joined transcript plus the number of
scroll-up and scroll-down gestures issued (each gesture is one
`pyautogui.scroll` call in the source). -/
structure ScanRes where
  text : String
  ups : Nat
  downs : Nat
deriving DecidableEq, Repr

/-- The `for i in range(scroll_count)` loop of `scroll_and_extract` in
`src/text_extractor.py`: at each index read the tree visible at that
step, filter and split it, union the new lines in, and issue one
scroll-up gesture when `i < scroll_count - 1`. -/
def scanLoop (w : Nat → Option AXNode) (n : Nat) :
    List Nat → List String × List String → Nat → (List String × List String) × Nat
  | [], st, ups => (st, ups)
  | i :: is, st, ups =>
    let text := formatExtractedText (extractTextFromApp (w i))
    let st := addLines (pySplitNl text) st
    scanLoop w n is st (if i < n - 1 then ups + 1 else ups)

/-- Embedding of `scroll_and_extract` in `src/text_extractor.py`: `w i` is the window
tree visible at scroll step `i`, `n` is `scroll_count`. After the loop,
`scroll_count - 1` scroll-down gestures restore the view (Python's
`range(scroll_count - 1)` is empty for `scroll_count = 0`, matching Nat
subtraction). -/
def scrollAndExtract (w : Nat → Option AXNode) (n : Nat) : ScanRes :=
  let r := scanLoop w n (List.range n) ([], []) 0
  { text := String.intercalate "\n" r.1.2, ups := r.2, downs := n - 1 }

/-- The `_UI_NOISE` deny-list of `src/platform_utils/macos_support.py`
(textually the same entries as `ui_noise` in `src/text_extractor.py`). -/
def uiNoiseMac : List String :=
  ["close", "minimize", "zoom", "back", "forward", "send",
   "attach", "emoji", "search", "menu", "file", "edit", "view",
   "window", "help", "new", "open", "save", "cut", "copy", "paste",
   "undo", "redo", "select all", "find", "×", "...", "⋮"]

/-- The per-attribute body of `_walk_tree` in
`src/platform_utils/macos_support.py` lines 48-53: the length check is on
the UNTRIMMED string, then the string is stripped and kept when nonempty,
not deny-listed and not yet seen. State is (lines, seen). -/
def macAttrStep (attr : Option String) (st : List String × List String) :
    List String × List String :=
  match attr with
  | none => st
  | some text =>
    if 2 ≤ text.length then
      let t := pyStrip text
      if t ≠ "" ∧ pyLower t ∉ uiNoiseMac ∧ t ∉ st.2 then (st.1 ++ [t], t :: st.2)
      else st
    else st

mutual
/-- Embedding of `_walk_tree` in `src/platform_utils/macos_support.py`: threads the
(lines, seen) state through value, title, description and the
children. -/
def walkTreeMac : AXNode → Nat → List String × List String → List String × List String
  | AXNode.mk _ value title desc children, depth, st =>
    if MAX_DEPTH < depth then st
    else
      walkTreesMac children (depth + 1)
        (macAttrStep desc (macAttrStep title (macAttrStep value st)))

/-- The `for child in children` loop of `_walk_tree` in
`src/platform_utils/macos_support.py`. -/
def walkTreesMac : List AXNode → Nat → List String × List String → List String × List String
  | [], _, st => st
  | t :: ts, depth, st => walkTreesMac ts depth (walkTreeMac t depth st)
end

/-- Embedding of `MacOSPlatform.extract_text_from_window` in
`src/platform_utils/macos_support.py`: `none` models a failed
AXUIElement creation or no window (return ""); otherwise join the
walker's lines with newlines. -/
def extractTextFromWindowMac (window : Option AXNode) : String :=
  match window with
  | none => ""
  | some w => String.intercalate "\n" (walkTreeMac w 0 ([], [])).1

/-- Shared environment for one call of the two macOS orchestrators:
the frontmost PID (as resolved by the osascript call, `none` on
failure), the stripped osascript app-name output (`none` when the call
fails), the accessibility-permission flag, and the window tree visible
at each deep-scan step (`w 0` is the tree for a quick scan). -/
structure TEEnv where
  pid : Option Int
  appName : Option String
  permission : Bool
  windows : Nat → Option AXNode

/-- Python truthiness of the resolved PID (`if not pid`): falsy when the
resolver returned `None` or `0`. -/
def pidFalsy : Option Int → Bool
  | none => true
  | some p => p == 0

/-- Embedding of `extract_conversation` in `src/text_extractor.py`: returns
("", "Unknown") when the PID is falsy; resolves the app name; returns
("", app_name) when the permission check fails; otherwise runs the deep
scroll-and-extract with scroll_count 5, or a single quick pass. -/
def extractConversationTE (deep : Bool) (env : TEEnv) : String × String :=
  if pidFalsy env.pid then ("", "Unknown")
  else
    let appName := env.appName.getD "Unknown"
    if !env.permission then ("", appName)
    else if deep then ((scrollAndExtract env.windows 5).text, appName)
    else (formatExtractedText (extractTextFromApp (env.windows 0)), appName)

/-- The `for i in range(5)` loop of the deep branch of
`BasePlatform.extract_conversation`, counting the `self.scroll_up`
gestures issued when `i < 4`. -/
def scanLoopBase (w : Nat → Option AXNode) :
    List Nat → List String × List String → Nat → (List String × List String) × Nat
  | [], st, ups => (st, ups)
  | i :: is, st, ups =>
    let text := extractTextFromWindowMac (w i)
    let st := addLines (pySplitNl text) st
    scanLoopBase w is st (if i < 4 then ups + 1 else ups)

/-- The deep branch of `BasePlatform.extract_conversation`
(`src/platform_utils/base.py` lines 77-96) as instantiated by
`MacOSPlatform`: 5 reads of `extract_text_from_window`, each split on
newlines and unioned into (seen, all_lines); 1 scroll-up after each of
the first 4 reads and 4 scroll-downs afterwards. -/
def baseDeepScan (w : Nat → Option AXNode) : (List String × List String) × Nat :=
  scanLoopBase w (List.range 5) ([], []) 0

/-- The warning message logged by `BasePlatform.extract_conversation`
when `check_permissions` returns False. -/
def permWarning : String := "OS permissions not granted — text extraction may fail"

/-- Output of `BasePlatform.extract_conversation`: the returned pair plus
the warnings logged and the scroll gestures issued. -/
structure BPOut where
  result : String × String
  warnings : List String
  ups : Nat
  downs : Nat
deriving Repr

/-- Embedding of `BasePlatform.extract_conversation` in `src/platform_utils/base.py`
as instantiated by `MacOSPlatform`: returns ("", "Unknown") on a falsy
PID; resolves the app name; logs a warning (but continues) when the
permission check fails; then either the deep 5-step union scan or one
`extract_text_from_window` pass. -/
def extractConversationBase (deep : Bool) (env : TEEnv) : BPOut :=
  if pidFalsy env.pid then ⟨("", "Unknown"), [], 0, 0⟩
  else
    let appName := env.appName.getD "Unknown"
    let warns := if !env.permission then [permWarning] else []
    if deep then
      let r := baseDeepScan env.windows
      ⟨(String.intercalate "\n" r.1.2, appName), warns, r.2, 4⟩
    else ⟨(extractTextFromWindowMac (env.windows 0), appName), warns, 0, 0⟩

/-- A Windows UI Automation control as read by
`WindowsPlatform._walk_tree`: the `Name` property, the text of the
`ValuePattern` (`none` models a missing pattern or the swallowed
`GetValuePattern` exception), and the children. -/
inductive WinNode where
  | mk (name value : Option String) (children : List WinNode)

/-- The `_UI_NOISE` deny-list of `src/platform_utils/windows_support.py`
(differs from the macOS list: maximize/restore instead of zoom). -/
def uiNoiseWin : List String :=
  ["close", "minimize", "maximize", "restore", "back", "forward", "send",
   "attach", "emoji", "search", "menu", "file", "edit", "view",
   "window", "help", "new", "open", "save", "cut", "copy", "paste",
   "undo", "redo", "select all", "find", "×", "...", "⋮"]

/-- The `control.Name` branch of `WindowsPlatform._walk_tree` lines
119-125: length check on the untrimmed string, strip, then nonempty,
deny-list and dedup checks. State is (lines, seen). -/
def winNameStep (name : Option String) (st : List String × List String) :
    List String × List String :=
  match name with
  | none => st
  | some n =>
    if 2 ≤ n.length then
      let t := pyStrip n
      if t ≠ "" ∧ pyLower t ∉ uiNoiseWin ∧ t ∉ st.2 then (st.1 ++ [t], t :: st.2)
      else st
    else st

/-- The `GetValuePattern().Value` branch of `WindowsPlatform._walk_tree`
lines 127-136: length check on the untrimmed string, strip, then only
nonempty and dedup checks - no deny-list check. -/
def winValueStep (value : Option String) (st : List String × List String) :
    List String × List String :=
  match value with
  | none => st
  | some v =>
    if 2 ≤ v.length then
      let t := pyStrip v
      if t ≠ "" ∧ t ∉ st.2 then (st.1 ++ [t], t :: st.2)
      else st
    else st

mutual
/-- Embedding of `WindowsPlatform._walk_tree` in
`src/platform_utils/windows_support.py`: threads (lines, seen) through
the Name branch, the ValuePattern branch and the children; stops when
`depth > max_depth`. -/
def walkTreeWin : WinNode → Nat → Nat → List String × List String → List String × List String
  | WinNode.mk name value children, depth, maxDepth, st =>
    if maxDepth < depth then st
    else walkTreesWin children (depth + 1) maxDepth (winValueStep value (winNameStep name st))

/-- The `for child in children` loop of `WindowsPlatform._walk_tree`. -/
def walkTreesWin : List WinNode → Nat → Nat → List String × List String → List String × List String
  | [], _, _, st => st
  | t :: ts, depth, maxDepth, st => walkTreesWin ts depth maxDepth (walkTreeWin t depth maxDepth st)
end

/-- The loop of `scroll_and_extract` with the OS boundary allowed to
throw, mirroring the absence of any try/except in the loop body of
`src/text_extractor.py` lines 197-211: `reads i` is the outcome of the
step-i `extract_text_from_app` call, `scrolls i` the outcome of the
step-i `pyautogui.scroll` call; an exception propagates immediately. -/
def scanLoopE (reads : Nat → Except Unit (List NodeRec))
    (scrolls : Nat → Except Unit Unit) (n : Nat) :
    List Nat → List String × List String → Except Unit (List String × List String)
  | [], st => .ok st
  | i :: is, st =>
    match reads i with
    | .error e => .error e
    | .ok nodes =>
      let text := formatExtractedText nodes
      let st := addLines (pySplitNl text) st
      if i < n - 1 then
        match scrolls i with
        | .error e => .error e
        | .ok _ => scanLoopE reads scrolls n is st
      else scanLoopE reads scrolls n is st

/-- The restoration loop of `scroll_and_extract` (lines 214-216) with
the scroll-down gestures allowed to throw. -/
def downLoopE (downs : Nat → Except Unit Unit) : List Nat → Except Unit Unit
  | [] => .ok ()
  | i :: is =>
    match downs i with
    | .error e => .error e
    | .ok _ => downLoopE downs is

/-- Embedding of `scroll_and_extract` in `src/text_extractor.py` with fallible OS
calls: since the source wraps none of the loop bodies in try/except, any
exception from a read, a scroll-up or a scroll-down propagates out of
the function and the accumulated transcript is lost. -/
def scrollAndExtractE (reads : Nat → Except Unit (List NodeRec))
    (scrolls downs : Nat → Except Unit Unit) (n : Nat) : Except Unit String :=
  match scanLoopE reads scrolls n (List.range n) ([], []) with
  | .error e => .error e
  | .ok st =>
    match downLoopE downs (List.range (n - 1)) with
    | .error e => .error e
    | .ok _ => .ok (String.intercalate "\n" st.2)

/-- Specification-side characterization of first-seen-order global
deduplication (used to state what the accumulation loops compute): keep
the first occurrence of each nonempty line, erase all its later
occurrences. -/
def keepFirsts : List String → List String
  | [] => []
  | x :: xs =>
    if x = "" then keepFirsts xs
    else x :: keepFirsts (xs.filter (fun y => y != x))
termination_by l => l.length
decreasing_by
  all_goals simp only [List.length_cons]
  · exact Nat.lt_succ_self _
  · exact Nat.lt_succ_of_le (List.length_filter_le _ _)

/-- Specification-side truncation of a tree at a given remaining depth:
`prune k t` keeps exactly the nodes at depth at most `k` below `t`. -/
def prune : Nat → AXNode → AXNode
  | 0, AXNode.mk r v t d _ => AXNode.mk r v t d []
  | k + 1, AXNode.mk r v t d cs => AXNode.mk r v t d (cs.map (prune k))

/-- A synthetic accessibility tree nested to the given depth: one text
node per level, a single chain of children. -/
def nestTree : Nat → AXNode
  | 0 => AXNode.mk none (some "node text") none none []
  | n + 1 => AXNode.mk none (some "node text") none none [nestTree n]

/-- Window trees for the two-step deep-scan scenario of the spec: step 0
shows lines Aa and Bb, step 1 (after scrolling) shows Bb and Cc. -/
def exampleWindows : Nat → Option AXNode := fun i =>
  if i = 0 then
    some (AXNode.mk none (some "Aa") none none [AXNode.mk none (some "Bb") none none []])
  else
    some (AXNode.mk none (some "Bb") none none [AXNode.mk none (some "Cc") none none []])

/-- Environment in which a PID and app name resolve, accessibility
permission is DENIED, and the window tree holds one conversation line. -/
def permDeniedEnv : TEEnv :=
  { pid := some 1
    appName := some "TestApp"
    permission := false
    windows := fun _ => some (AXNode.mk none (some "How are you today?") none none []) }

/-- Environment in which a PID and app name resolve, permission is
granted, and the single window node carries both a value and a distinct
title. -/
def twoAttrEnv : TEEnv :=
  { pid := some 1
    appName := some "ChatApp"
    permission := true
    windows := fun _ => some (AXNode.mk none (some "Hello") (some "World") none []) }

/-- Read outcomes for the aborting deep scan: every
`extract_text_from_app` call succeeds and yields one text node. -/
def okReads : Nat → Except Unit (List NodeRec) := fun _ => .ok [⟨"", "Hello there", 0⟩]

/-- Gesture outcomes for the aborting deep scan: the first scroll-up
gesture (after the step-0 read) raises at the OS boundary. -/
def failFirstScroll : Nat → Except Unit Unit := fun i =>
  if i = 0 then .error () else .ok ()

/-- Gesture outcomes in which every gesture succeeds. -/
def okGesture : Nat → Except Unit Unit := fun _ => .ok ()

/-- The lines contributed by scroll step `i` of `scroll_and_extract`:
the filtered transcript of the tree visible at that step, split on
newlines (exactly the list the step loop iterates over). -/
def stepLines (w : Nat → Option AXNode) (i : Nat) : List String :=
  pySplitNl (formatExtractedText (extractTextFromApp (w i)))

/-- All lines a deep scan of `n` steps iterates over, in step order. -/
def deepLines (w : Nat → Option AXNode) (n : Nat) : List String :=
  (List.range n).flatMap (stepLines w)

/-- Environment in which no frontmost PID resolves. -/
def noPidEnv : TEEnv :=
  { pid := none
    appName := some "SomeApp"
    permission := true
    windows := fun _ => some (AXNode.mk none (some "Hi there!") none none []) }

/-- Induction principle for the nested inductive `AXNode`: to prove a
property of every tree it suffices to prove it for a node assuming it
for each child. -/
theorem AXNode.inductionOn {P : AXNode → Prop}
    (h : ∀ r v t d cs, (∀ c ∈ cs, P c) → P (AXNode.mk r v t d cs)) :
    ∀ t, P t
  | AXNode.mk r v t d cs =>
    h r v t d cs (fun c hc => AXNode.inductionOn h c)
termination_by t => sizeOf t
decreasing_by
  have h1 := List.sizeOf_lt_of_mem hc
  simp only [AXNode.mk.sizeOf_spec]
  omega

/-- Membership in the walk of a child list is membership in the walk of
one of the children. -/
theorem mem_walkTrees {e : NodeRec} :
    ∀ {cs : List AXNode} {d : Nat}, e ∈ walkTrees cs d ↔ ∃ c ∈ cs, e ∈ walkTree c d := by
  intro cs
  induction cs with
  | nil => simp [walkTrees]
  | cons c cs ih => intro d; simp [walkTrees, ih, or_and_right, exists_or]

/-- Every record emitted by the text_extractor walker started at depth
`d` was produced at a depth between `d` and the ceiling 40. -/
theorem walkTree_depth_le (t : AXNode) :
    ∀ d : Nat, ∀ e ∈ walkTree t d, d ≤ e.depth ∧ e.depth ≤ MAX_DEPTH := by
  induction t using AXNode.inductionOn with
  | h r v ti de cs ih =>
    intro d e he
    rw [walkTree] at he
    split at he
    · simp at he
    · rename_i hguard
      rcases List.mem_append.1 he with h1 | h1
      · split at h1
        · simp at h1
          subst h1
          simp only [MAX_DEPTH] at hguard ⊢
          omega
        · simp at h1
      · rcases mem_walkTrees.1 h1 with ⟨c, hc, hec⟩
        have := ih c hc (d + 1) e hec
        omega

/-- Beyond the depth ceiling the walker returns nothing. -/
theorem walkTree_gt (c : AXNode) (d : Nat) (h : MAX_DEPTH < d) : walkTree c d = [] := by
  cases c
  rw [walkTree]
  simp [h]

/-- Beyond the depth ceiling the child loop returns nothing. -/
theorem walkTrees_gt : ∀ (cs : List AXNode) (d : Nat), MAX_DEPTH < d → walkTrees cs d = [] := by
  intro cs
  induction cs with
  | nil => simp [walkTrees]
  | cons c cs ih => intro d h; simp [walkTrees, walkTree_gt c d h, ih d h]

/-- Pruning every child at remaining depth `k` does not change the child
loop, provided it does not change any single child. -/
theorem walkTrees_map_prune (k d : Nat) :
    ∀ cs : List AXNode, (∀ c ∈ cs, walkTree (prune k c) d = walkTree c d) →
      walkTrees (cs.map (prune k)) d = walkTrees cs d := by
  intro cs
  induction cs with
  | nil => simp
  | cons c cs ih =>
    intro h
    simp only [List.map_cons, walkTrees]
    rw [h c (List.mem_cons_self c cs), ih (fun x hx => h x (List.mem_cons_of_mem c hx))]

/-- Truncating the tree at the remaining distance to the depth ceiling
does not change the walk: nodes deeper than the ceiling contribute
nothing. -/
theorem walkTree_prune (t : AXNode) :
    ∀ d : Nat, d ≤ MAX_DEPTH → walkTree (prune (MAX_DEPTH - d) t) d = walkTree t d := by
  induction t using AXNode.inductionOn with
  | h r v ti de cs ih =>
    intro d hd
    by_cases hEq : d = MAX_DEPTH
    · subst hEq
      have h0 : MAX_DEPTH - MAX_DEPTH = 0 := Nat.sub_self _
      rw [h0]
      rw [prune, walkTree, walkTree]
      have hgt : MAX_DEPTH < MAX_DEPTH + 1 := Nat.lt_succ_self _
      rw [walkTrees_gt cs _ hgt]
      simp [walkTrees]
    · have hlt : d < MAX_DEPTH := lt_of_le_of_ne hd hEq
      have hstep : MAX_DEPTH - d = (MAX_DEPTH - (d + 1)) + 1 := by omega
      rw [hstep, prune, walkTree, walkTree]
      rw [walkTrees_map_prune (MAX_DEPTH - (d + 1)) (d + 1) cs
        (fun c hc => ih c hc (d + 1) (by omega))]

/-- Elements of `keepFirsts l` come from `l`. -/
theorem mem_keepFirsts : ∀ (l : List String) (y : String), y ∈ keepFirsts l → y ∈ l := by
  intro l
  induction l using keepFirsts.induct with
  | case1 => simp [keepFirsts]
  | case2 xs ih =>
    intro y hy
    rw [keepFirsts, if_pos rfl] at hy
    exact List.mem_cons_of_mem _ (ih y hy)
  | case3 x xs h ih =>
    intro y hy
    rw [keepFirsts, if_neg h] at hy
    rcases List.mem_cons.1 hy with h1 | h1
    · simp [h1]
    · exact List.mem_cons_of_mem x (List.mem_of_mem_filter (ih y h1))

/-- The first-seen deduplication contains no duplicates. -/
theorem keepFirsts_nodup : ∀ l : List String, (keepFirsts l).Nodup := by
  intro l
  induction l using keepFirsts.induct with
  | case1 => simp [keepFirsts]
  | case2 xs ih => rw [keepFirsts, if_pos rfl]; exact ih
  | case3 x xs h ih =>
    rw [keepFirsts, if_neg h]
    refine List.nodup_cons.2 ⟨?_, ih⟩
    intro hx
    have hmem := mem_keepFirsts _ _ hx
    have hne := (List.mem_filter.1 hmem).2
    simp at hne

/-- Processing a concatenation processes the pieces in order. -/
theorem addLines_append :
    ∀ (a b : List String) (st : List String × List String),
      addLines (a ++ b) st = addLines b (addLines a st) := by
  intro a
  induction a with
  | nil => intro b st; rfl
  | cons l ls ih =>
    intro b st
    simp only [List.cons_append, addLines]
    split
    · exact ih b _
    · exact ih b st

/-- The accumulator built by the union loop is exactly the previous
accumulator followed by the first-seen deduplication of the not-yet-seen
input lines. -/
theorem addLines_acc :
    ∀ (ls : List String) (st : List String × List String),
      (addLines ls st).2 = st.2 ++ keepFirsts (ls.filter (fun l => decide (l ∉ st.1))) := by
  intro ls
  induction ls with
  | nil => intro st; simp [addLines, keepFirsts]
  | cons l ls ih =>
    intro st
    rw [addLines]
    by_cases h1 : l = ""
    · subst h1
      rw [if_neg (by simp), ih st]
      congr 1
      by_cases h2 : "" ∈ st.1
      · rw [List.filter_cons, if_neg (by simp [h2])]
      · rw [List.filter_cons, if_pos (decide_eq_true h2), keepFirsts, if_pos rfl]
    · by_cases h2 : l ∈ st.1
      · rw [if_neg (by simp [h2]), ih st]
        congr 1
        rw [List.filter_cons, if_neg (by simp [h2])]
      · rw [if_pos ⟨h1, h2⟩, ih (l :: st.1, st.2 ++ [l])]
        have hfcons : List.filter (fun y => decide (y ∉ st.1)) (l :: ls)
            = l :: List.filter (fun y => decide (y ∉ st.1)) ls := by
          rw [List.filter_cons, if_pos (decide_eq_true h2)]
        have hpt : List.filter (fun y => decide (y ∉ (l :: st.1, st.2 ++ [l]).1)) ls
            = List.filter (fun a => (a != l && decide (a ∉ st.1))) ls := by
          refine List.filter_congr ?_
          intro y _
          by_cases hy : y = l
          · subst hy; simp
          · by_cases hys : y ∈ st.1 <;> simp [hy, hys]
        rw [hpt, hfcons, keepFirsts, if_neg h1, ← List.filter_filter, List.append_assoc,
          List.singleton_append]

/-- The (seen, lines) state after running the scroll loop over a list of
step indices equals the union loop run over the concatenation of the
steps' line lists. -/
theorem scanLoop_fst (w : Nat → Option AXNode) (n : Nat) :
    ∀ (is : List Nat) (st : List String × List String) (u : Nat),
      (scanLoop w n is st u).1 = addLines (is.flatMap (stepLines w)) st := by
  intro is
  induction is with
  | nil => intro st u; rfl
  | cons i is ih =>
    intro st u
    rw [scanLoop, List.flatMap_cons, addLines_append]
    exact ih _ _

/-- The scroll-up counter after the loop counts the indices below
`scroll_count - 1`. -/
theorem scanLoop_ups (w : Nat → Option AXNode) (n : Nat) :
    ∀ (is : List Nat) (st : List String × List String) (u : Nat),
      (scanLoop w n is st u).2 = u + is.countP (fun i => decide (i < n - 1)) := by
  intro is
  induction is with
  | nil => intro st u; simp [scanLoop]
  | cons i is ih =>
    intro st u
    rw [scanLoop, ih, List.countP_cons]
    by_cases h : i < n - 1 <;> simp [h] <;> omega

/-- Counting the indices below `n - 1` among `0, ..., n - 1`. -/
theorem countP_range_pred (n : Nat) (h : 1 ≤ n) :
    (List.range n).countP (fun i => decide (i < n - 1)) = n - 1 := by
  obtain ⟨m, rfl⟩ : ∃ m, n = m + 1 := ⟨n - 1, by omega⟩
  simp only [Nat.add_sub_cancel]
  rw [List.range_succ, List.countP_append]
  have h1 : (List.range m).countP (fun i => decide (i < m)) = m := by
    rw [List.countP_eq_length_filter, List.filter_eq_self.2, List.length_range]
    intro a ha
    simp [List.mem_range.1 ha]
  rw [h1]
  simp

/-- C1: for every deep scan, the returned transcript is the
newline-join, in first-seen order across all scroll steps, of the lines
the steps yield, deduplicated by one set spanning the entire operation
(`keepFirsts` keeps the first occurrence of each nonempty line and
erases every later reappearance), and no string occurs twice in the
joined line list; on the spec's two-step scenario (step 0 shows Aa and
Bb, step 1 shows Bb and Cc) the transcript is exactly Aa, Bb, Cc with Bb
not duplicated. -/
theorem scroll_and_extract_first_seen_dedup (w : Nat → Option AXNode) (n : Nat) :
    (scrollAndExtract w n).text = String.intercalate "\n" (keepFirsts (deepLines w n))
      ∧ (keepFirsts (deepLines w n)).Nodup
      ∧ (scrollAndExtract exampleWindows 2).text = "Aa\nBb\nCc" := by
  refine ⟨?_, keepFirsts_nodup _, by decide⟩
  show String.intercalate "\n" (scanLoop w n (List.range n) ([], []) 0).1.2 = _
  rw [scanLoop_fst, addLines_acc]
  simp only [List.nil_append]
  congr 2
  rw [List.filter_eq_self.2]
  · rfl
  · intro a _
    simp

/-- C8: for every deep scan of at least one step, the extractor issues
exactly `scroll_count - 1` scroll-up gestures (one after each non-final
read) and exactly `scroll_count - 1` scroll-down gestures (restoration
after the final read), regardless of how many new lines each step yields
(the window trees `w` are arbitrary). -/
theorem scroll_and_extract_gesture_counts (w : Nat → Option AXNode) (n : Nat) (h : 1 ≤ n) :
    (scrollAndExtract w n).ups = n - 1 ∧ (scrollAndExtract w n).downs = n - 1 := by
  constructor
  · show (scanLoop w n (List.range n) ([], []) 0).2 = n - 1
    rw [scanLoop_ups, countP_range_pred n h]
    omega
  · rfl

/-- Witness for C8 at the source's parameters: a deep scan with
`scroll_count = 5` issues exactly 4 scroll-up and 4 scroll-down
gestures. -/
theorem scroll_and_extract_gesture_counts_witness :
    (scrollAndExtract exampleWindows 5).ups = 5 - 1
      ∧ (scrollAndExtract exampleWindows 5).downs = 5 - 1 :=
  scroll_and_extract_gesture_counts exampleWindows 5 (by decide)

/-- C4: for every accessibility tree the walk terminates (the embedded
walker is a total function evaluable on any tree, including one nested
to depth 100) and every emitted record was produced at depth at most 40,
the root being at depth 0; truncating the tree at the depth ceiling does
not change the output, so nodes deeper than the ceiling contribute no
lines, and no error is raised. -/
theorem walk_depth_ceiling (t : AXNode) :
    (∀ e ∈ walkTree t 0, e.depth ≤ MAX_DEPTH)
      ∧ walkTree t 0 = walkTree (prune MAX_DEPTH t) 0 := by
  constructor
  · intro e he
    exact (walkTree_depth_le t 0 e he).2
  · have h := walkTree_prune t 0 (by omega)
    simpa using h.symm

/-- Witness for C4: walking the synthetic tree nested to depth 100
yields the root record, whose depth obeys the ceiling. -/
theorem walk_depth_ceiling_witness :
    (⟨"", "node text", 0⟩ : NodeRec) ∈ walkTree (nestTree 100) 0
      ∧ (⟨"", "node text", 0⟩ : NodeRec).depth ≤ MAX_DEPTH :=
  ⟨by decide, (walk_depth_ceiling (nestTree 100)).1 _ (by decide)⟩

/-- On length-2-or-more, duplicate-free input, the filter loop of
format_extracted_text reduces to filtering by the deny-list test. -/
theorem formatLines_filter :
    ∀ (ls seen : List String), (∀ s ∈ ls, 2 ≤ s.length) → ls.Nodup →
      (∀ s ∈ ls, s ∉ seen) →
      formatLines ls seen = ls.filter (fun s => decide (pyLower s ∉ uiNoise)) := by
  intro ls
  induction ls with
  | nil => intro seen _ _ _; rfl
  | cons t ts ih =>
    intro seen hlen hnd hseen
    rw [formatLines]
    have hl : ¬ t.length < 2 := by
      have := hlen t (List.mem_cons_self t ts)
      omega
    rw [if_neg hl]
    by_cases hn : pyLower t ∈ uiNoise
    · rw [if_pos hn, List.filter_cons, if_neg (by simp [hn])]
      exact ih seen (fun s hs => hlen s (List.mem_cons_of_mem t hs)) (List.Nodup.of_cons hnd)
        (fun s hs => hseen s (List.mem_cons_of_mem t hs))
    · rw [if_neg hn, if_neg (hseen t (List.mem_cons_self t ts)), List.filter_cons,
        if_pos (decide_eq_true hn)]
      congr 1
      refine ih (t :: seen) (fun s hs => hlen s (List.mem_cons_of_mem t hs))
        (List.Nodup.of_cons hnd) ?_
      intro s hs hmem
      rcases List.nodup_cons.1 hnd with ⟨ht, _⟩
      rcases List.mem_cons.1 hmem with h1 | h1
      · exact ht (h1 ▸ hs)
      · exact hseen s (List.mem_cons_of_mem t hs) h1

/-- C2: on any candidate list whose strings have length at least 2 and
contain no duplicates (the walker already deduplicates), the noise
filter removes a string if and only if its lowercased form equals a
deny-list entry: deny-listed strings are dropped, and every other
string - including one that contains a deny-listed word only as a
proper substring - is preserved in its original position
(`List.filter` keeps relative order). -/
theorem noise_filter_exact (ls : List String) (h2 : ∀ s ∈ ls, 2 ≤ s.length)
    (hnd : ls.Nodup) :
    formatLines ls [] = ls.filter (fun s => decide (pyLower s ∉ uiNoise)) :=
  formatLines_filter ls [] h2 hnd (fun s _ => List.not_mem_nil s)

/-- Witness for C2: the sentence containing the deny-listed word send as
a substring is retained, while the standalone Send is removed. -/
theorem noise_filter_exact_witness :
    formatLines ["Please send the file back", "Send", "Hello there"] []
      = ["Please send the file back", "Hello there"] :=
  (noise_filter_exact ["Please send the file back", "Send", "Hello there"]
    (by decide) (by decide)).trans (by decide)

/-- When every OS call succeeds, the fallible scan loop computes the
same union as the pure loop. -/
theorem scanLoopE_ok (w : Nat → Option AXNode) (n : Nat) :
    ∀ (is : List Nat) (st : List String × List String),
      scanLoopE (fun i => .ok (extractTextFromApp (w i))) (fun _ => .ok ()) n is st
        = .ok (addLines (is.flatMap (stepLines w)) st) := by
  intro is
  induction is with
  | nil => intro st; rfl
  | cons i is ih =>
    intro st
    rw [List.flatMap_cons, addLines_append]
    simp only [scanLoopE]
    by_cases h : i < n - 1
    · rw [if_pos h]
      exact ih _
    · rw [if_neg h]
      exact ih _

/-- When every scroll-down gesture succeeds the restoration loop
succeeds. -/
theorem downLoopE_ok : ∀ is : List Nat, downLoopE (fun _ => .ok ()) is = .ok () := by
  intro is
  induction is with
  | nil => rfl
  | cons i is ih => rw [downLoopE]; exact ih

/-- When the first scroll-up gesture raises, the whole deep scan returns
the error, whatever the reads yield. -/
theorem scanLoopE_first_scroll_error (reads : Nat → Except Unit (List NodeRec))
    (scrolls : Nat → Except Unit Unit) (n : Nat) (hn : 2 ≤ n)
    (hs : scrolls 0 = .error ()) :
    ∀ st : List String × List String,
      scanLoopE reads scrolls n (List.range n) st = .error () := by
  intro st
  obtain ⟨m, rfl⟩ : ∃ m, n = m + 1 := ⟨n - 1, by omega⟩
  rw [List.range_succ_eq_map]
  simp only [scanLoopE]
  cases hr : reads 0 with
  | error e => cases e; rfl
  | ok nodes =>
    have h0 : 0 < m + 1 - 1 := by omega
    simp only [if_pos h0, hs]

/-- C6 (amended): scroll_and_extract wraps none of its loop bodies in
try/except, so a read step or scroll gesture that throws at the OS
boundary propagates and aborts the whole extraction, discarding the
lines accumulated by the other steps; only when every OS call succeeds
does the deep scan return the scroll-and-union transcript. -/
theorem scroll_and_extract_step_failure (w : Nat → Option AXNode)
    (reads : Nat → Except Unit (List NodeRec)) (scrolls downs : Nat → Except Unit Unit)
    (n : Nat) (hn : 2 ≤ n) (hs : scrolls 0 = .error ()) :
    scrollAndExtractE (fun i => .ok (extractTextFromApp (w i))) (fun _ => .ok ())
        (fun _ => .ok ()) n = .ok (scrollAndExtract w n).text
      ∧ scrollAndExtractE reads scrolls downs n = .error () := by
  constructor
  · unfold scrollAndExtractE
    rw [scanLoopE_ok, downLoopE_ok]
    show Except.ok _ = Except.ok (String.intercalate "\n" (scanLoop w n (List.range n) ([], []) 0).1.2)
    rw [scanLoop_fst]
  · unfold scrollAndExtractE
    rw [scanLoopE_first_scroll_error reads scrolls n hn hs ([], [])]

/-- Counterexample to C6 as stated: with every read succeeding (each
step sees the line Hello there) and only the first scroll-up gesture
throwing, the code returns an error rather than continuing with the next
iteration; had every gesture succeeded the very same reads would have
produced the transcript Hello there, which is what the claim predicts
even under the failing gesture. -/
theorem scroll_and_extract_step_failure_counterexample :
    scrollAndExtractE okReads failFirstScroll okGesture 5 = Except.error ()
      ∧ scrollAndExtractE okReads okGesture okGesture 5 = Except.ok "Hello there"
      ∧ (Except.error () : Except Unit String) ≠ Except.ok "Hello there" :=
  ⟨rfl, rfl, fun h => Except.noConfusion h⟩

/-- Witness for the amended C6 at concrete inputs: a 5-step scan whose
first scroll-up gesture throws returns the error, and the all-success
run returns the pure transcript. -/
theorem scroll_and_extract_step_failure_witness :
    scrollAndExtractE (fun i => .ok (extractTextFromApp (exampleWindows i))) (fun _ => .ok ())
        (fun _ => .ok ()) 5 = .ok (scrollAndExtract exampleWindows 5).text
      ∧ scrollAndExtractE okReads failFirstScroll okGesture 5 = .error () :=
  scroll_and_extract_step_failure exampleWindows okReads failFirstScroll okGesture 5
    (by decide) rfl

/-- C3: when the frontmost-PID resolver returns None, both
extract_conversation implementations return exactly ("", "Unknown"),
in deep and quick mode alike; the embedded functions are total, so no
exception is raised. -/
theorem no_pid_returns_empty (env : TEEnv) (deep : Bool) (h : env.pid = none) :
    extractConversationTE deep env = ("", "Unknown")
      ∧ (extractConversationBase deep env).result = ("", "Unknown") := by
  have hf : pidFalsy env.pid = true := by rw [h]; rfl
  unfold extractConversationTE extractConversationBase
  rw [hf]
  simp

/-- Witness for C3 in both modes on a concrete environment with no
resolvable PID. -/
theorem no_pid_returns_empty_witness :
    (extractConversationTE true noPidEnv = ("", "Unknown")
        ∧ (extractConversationBase true noPidEnv).result = ("", "Unknown"))
      ∧ (extractConversationTE false noPidEnv = ("", "Unknown")
        ∧ (extractConversationBase false noPidEnv).result = ("", "Unknown")) :=
  ⟨no_pid_returns_empty noPidEnv true rfl, no_pid_returns_empty noPidEnv false rfl⟩

/-- C5 (amended): when a PID resolves and the permission check fails,
BasePlatform.extract_conversation logs the warning and still attempts
the extraction (its result is the same as with permission granted),
but extract_conversation in text_extractor.py instead returns
("", app_name) immediately, skipping the tree walk and the scroll
loop. -/
theorem permission_denied_behavior (env : TEEnv) (deep : Bool)
    (hpid : pidFalsy env.pid = false) (hperm : env.permission = false) :
    (extractConversationBase deep env).warnings = [permWarning]
      ∧ (extractConversationBase deep env).result
          = (extractConversationBase deep { env with permission := true }).result
      ∧ extractConversationTE deep env = ("", env.appName.getD "Unknown") := by
  unfold extractConversationBase extractConversationTE
  cases deep <;> simp [hpid, hperm]

/-- Counterexample to C5 as stated: in a permission-denied environment
whose window holds a conversation line, extract_conversation of
text_extractor.py returns empty text, while the very same call with
permission granted returns the extracted line - so the extraction was
not attempted on denial. -/
theorem permission_denied_te_counterexample :
    extractConversationTE false permDeniedEnv = ("", "TestApp")
      ∧ extractConversationTE false { permDeniedEnv with permission := true }
          = ("How are you today?", "TestApp")
      ∧ (("", "TestApp") : String × String) ≠ ("How are you today?", "TestApp") :=
  ⟨by decide, by decide, by decide⟩

/-- Witness for the amended C5 on the concrete permission-denied
environment in quick mode. -/
theorem permission_denied_behavior_witness :
    (extractConversationBase false permDeniedEnv).warnings = [permWarning]
      ∧ (extractConversationBase false permDeniedEnv).result
          = (extractConversationBase false { permDeniedEnv with permission := true }).result
      ∧ extractConversationTE false permDeniedEnv
          = ("", permDeniedEnv.appName.getD "Unknown") :=
  permission_denied_behavior permDeniedEnv false rfl rfl

/-- C7 (amended): the two length checks differ. In text_extractor's
pipeline, format_extracted_text keeps a node text only if its length is
at least 2 (the parts were already stripped when the walker joined
them), so every output line has length at least 2. In the macOS
platform walker, the length-2 check is applied to the UNTRIMMED
attribute string and the trimmed string need only be nonempty, pass the
deny-list and be unseen - so an attribute such as "a " (length 2,
trimming to the single character a) IS kept. -/
theorem length_check_placement :
    (∀ (ls seen : List String) (l : String), l ∈ formatLines ls seen → 2 ≤ l.length)
      ∧ ∀ s : String,
          (walkTreeMac (AXNode.mk none (some s) none none []) 0 ([], [])).1
            = if 2 ≤ s.length ∧ pyStrip s ≠ "" ∧ pyLower (pyStrip s) ∉ uiNoiseMac
              then [pyStrip s] else [] := by
  constructor
  · intro ls
    induction ls with
    | nil => intro seen l hl; simp [formatLines] at hl
    | cons t ts ih =>
      intro seen l hl
      rw [formatLines] at hl
      by_cases h1 : t.length < 2
      · rw [if_pos h1] at hl
        exact ih seen l hl
      · rw [if_neg h1] at hl
        by_cases h2 : pyLower t ∈ uiNoise
        · rw [if_pos h2] at hl
          exact ih seen l hl
        · rw [if_neg h2] at hl
          by_cases h3 : t ∈ seen
          · rw [if_pos h3] at hl
            exact ih seen l hl
          · rw [if_neg h3] at hl
            rcases List.mem_cons.1 hl with h4 | h4
            · subst h4; omega
            · exact ih _ l h4
  · intro s
    rw [walkTreeMac]
    rw [if_neg (by decide : ¬ MAX_DEPTH < 0)]
    simp only [macAttrStep, walkTreesMac, List.not_mem_nil, not_false_iff, and_true]
    by_cases h1 : 2 ≤ s.length
    · rw [if_pos h1]
      by_cases h2 : pyStrip s ≠ "" ∧ pyLower (pyStrip s) ∉ uiNoiseMac
      · rw [if_pos h2, if_pos ⟨h1, h2⟩]
        simp
      · rw [if_neg h2, if_neg (by simp [h1]; tauto)]
    · rw [if_neg h1, if_neg (by simp [h1])]

/-- Counterexample to C7 as stated: the macOS walker emits the line a
for the attribute string "a ", even though its trimmed form has length
1 < 2 - a string whose trimmed form is shorter than 2 characters is NOT
excluded. -/
theorem length_check_placement_counterexample :
    (walkTreeMac (AXNode.mk none (some "a ") none none []) 0 ([], [])).1 = ["a"]
      ∧ ("a" : String).length < 2 :=
  ⟨by decide, by decide⟩

/-- Witness for the amended C7: a kept line of the filter has length at
least 2, and the walker keeps "a " as the single character a. -/
theorem length_check_placement_witness :
    2 ≤ ("Hi there" : String).length
      ∧ (walkTreeMac (AXNode.mk none (some "a ") none none []) 0 ([], [])).1
          = if 2 ≤ ("a " : String).length ∧ pyStrip "a " ≠ ""
                ∧ pyLower (pyStrip "a ") ∉ uiNoiseMac
            then [pyStrip "a "] else [] :=
  ⟨length_check_placement.1 ["Hi there"] [] "Hi there" (by decide),
   length_check_placement.2 "a "⟩

/-- C9: in the Windows tree walker, text read through the ValuePattern
is checked only for length and duplication, never against the deny-list:
a control whose value-pattern string is deny-listed still has that
string emitted, while the identical string read from a Name attribute is
filtered out. -/
theorem win_value_skips_denylist (s : String) (h2 : 2 ≤ s.length)
    (hne : pyStrip s ≠ "") (hnoise : pyLower (pyStrip s) ∈ uiNoiseWin) :
    (walkTreeWin (WinNode.mk none (some s) []) 0 40 ([], [])).1 = [pyStrip s]
      ∧ (walkTreeWin (WinNode.mk (some s) none []) 0 40 ([], [])).1 = [] := by
  constructor
  · rw [walkTreeWin]
    rw [if_neg (by omega : ¬ (40 : Nat) < 0)]
    simp only [winNameStep, winValueStep, walkTreesWin, List.not_mem_nil, not_false_iff,
      and_true]
    rw [if_pos h2, if_pos hne]
    simp
  · rw [walkTreeWin]
    rw [if_neg (by omega : ¬ (40 : Nat) < 0)]
    simp only [winNameStep, winValueStep, walkTreesWin, List.not_mem_nil, not_false_iff,
      and_true]
    rw [if_pos h2, if_neg (by simp [hnoise])]

/-- Witness for C9 at the deny-listed string send: the value-pattern
node emits it, the Name node does not. -/
theorem win_value_skips_denylist_witness :
    (walkTreeWin (WinNode.mk none (some "send") []) 0 40 ([], [])).1 = [pyStrip "send"]
      ∧ (walkTreeWin (WinNode.mk (some "send") none []) 0 40 ([], [])).1 = [] :=
  win_value_skips_denylist "send" (by decide) (by decide) (by decide)

/-- C10 (amended): the two macOS pipelines agree on the returned app
name for every environment and both return ("", "Unknown") whenever no
frontmost PID resolves; but their texts differ in general - on
permission denial text_extractor returns empty text while BasePlatform
still extracts, and a node carrying both a value and a distinct title
yields one " | "-joined line in text_extractor but two separate lines in
MacOSPlatform. -/
theorem pipelines_appname_agree (env : TEEnv) (deep : Bool) :
    (extractConversationTE deep env).2 = (extractConversationBase deep env).result.2
      ∧ (env.pid = none →
          extractConversationTE deep env = ("", "Unknown")
            ∧ (extractConversationBase deep env).result = ("", "Unknown")) := by
  constructor
  · unfold extractConversationTE extractConversationBase
    cases hp : pidFalsy env.pid
    · cases env.permission <;> cases deep <;> simp [hp]
    · simp [hp]
  · intro h
    have hf : pidFalsy env.pid = true := by rw [h]; rfl
    unfold extractConversationTE extractConversationBase
    simp [hf]

/-- Counterexample to C10 as stated: on a node carrying value Hello and
title World, extract_conversation of text_extractor.py returns the
single line Hello | World while the BasePlatform pipeline returns the
two lines Hello and World - the pairs differ. -/
theorem pipelines_disagree_counterexample :
    extractConversationTE false twoAttrEnv = ("Hello | World", "ChatApp")
      ∧ (extractConversationBase false twoAttrEnv).result = ("Hello\nWorld", "ChatApp")
      ∧ extractConversationTE false twoAttrEnv ≠ (extractConversationBase false twoAttrEnv).result :=
  ⟨by decide, by decide, by decide⟩

/-- Witness for the amended C10: on a concrete no-PID environment in
deep mode the two pipelines agree on the app name and both return
("", "Unknown"). -/
theorem pipelines_appname_agree_witness :
    (extractConversationTE true noPidEnv).2 = (extractConversationBase true noPidEnv).result.2
      ∧ extractConversationTE true noPidEnv = ("", "Unknown")
      ∧ (extractConversationBase true noPidEnv).result = ("", "Unknown") :=
  ⟨(pipelines_appname_agree noPidEnv true).1,
   ((pipelines_appname_agree noPidEnv true).2 rfl).1,
   ((pipelines_appname_agree noPidEnv true).2 rfl).2⟩
